import Mathlib

/-!
Verification of the channel-account SDK (`kin/account.py`, `kin/stellar/builder.py`).

The account facade and builder are embedded shallowly.  External collaborators
(the ledger client, the channel manager submission path) and helper modules that
are not part of the verified sources (`kin/blockchain/utils.py`,
`kin/blockchain/keypair.py`, `kin/config.py`, `kin/errors.py`) are modelled from
the specification, as noted on each definition.  Observable collaborator
interactions are recorded in an event trace so that claims about call order and
about the absence of network traffic can be stated.
-/

namespace KinSdk

/-- Decidable equality for `Except`, needed to evaluate closed checks on
results of fallible operations. -/
instance {ε α : Type} [DecidableEq ε] [DecidableEq α] : DecidableEq (Except ε α)
  | Except.error e, Except.error f =>
    if h : e = f then isTrue (by rw [h]) else isFalse (fun hh => by cases hh; exact h rfl)
  | Except.error _, Except.ok _ => isFalse (fun hh => by cases hh)
  | Except.ok _, Except.error _ => isFalse (fun hh => by cases hh)
  | Except.ok x, Except.ok y =>
    if h : x = y then isTrue (by rw [h]) else isFalse (fun hh => by cases hh; exact h rfl)

/-- Account statuses enum of `kin/account.py` (`AccountStatus`). -/
inductive AccountStatus
  | NOT_CREATED
  | NOT_ACTIVATED
  | ACTIVATED
deriving DecidableEq

/-- Errors surfaced by `kin/account.py`.  The error classes live in
`kin/errors.py`, which is not among the verified sources; the constructors
mirror the classes referenced from `kin/account.py`, with Python `ValueError`
carrying its message text (quote characters of the original messages elided). -/
inductive KinError
  | valueError (msg : String)
  | accountNotActivated
  | accountNotFound
  | accountExists
  | lowBalance (msg : String)
deriving DecidableEq

/-- Modelled from the spec: `is_valid_secret_key` of `kin/blockchain/utils.py`
is not among the verified sources.  A secret seed is well formed when it is a
56 character string starting with `S`; the format/checksum test of the key
encoding is abstracted to this shape test. -/
def is_valid_secret_key (s : String) : Bool :=
  s.length == 56 && s.data.head? == some 'S'

/-- Modelled from the spec: `is_valid_address` of `kin/blockchain/utils.py`
is not among the verified sources.  An address is well formed when it is a
56 character string starting with `G`. -/
def is_valid_address (s : String) : Bool :=
  s.length == 56 && s.data.head? == some 'G'

/-- Modelled from the spec: `Keypair.address_from_seed` of
`kin/blockchain/keypair.py` is not among the verified sources.  The spec only
requires a pure, total, deterministic map from seeds to addresses. -/
def address_from_seed (seed : String) : String :=
  String.mk ('G' :: seed.data.drop 1)

/-- Modelled from the spec: `Keypair.generate_hd_seed` of
`kin/blockchain/keypair.py` is not among the verified sources.  The spec
requires a deterministic derivation of a channel seed from a master seed and a
string index, with distinct indices giving distinct seeds. -/
def generate_hd_seed (master : String) (idx : String) : String :=
  master ++ "-" ++ idx

/-- Modelled from the spec: the `MIN_ACCOUNT_BALANCE` constant of
`kin/config.py` is not among the verified sources; its exact value is not used
by any verified property. -/
def MIN_ACCOUNT_BALANCE : ℚ := 1

/-- The asset value of the wrapped ledger library (`stellar_base.asset.Asset`):
an asset code with an optional issuer; the native asset has no issuer. -/
structure Asset where
  code : String
  issuer : Option String
deriving DecidableEq

/-- `Asset.native()` of the wrapped library, used by `send_xlm`. -/
def Asset.native : Asset := ⟨"XLM", none⟩

/-- The builder operation that `KinAccount` asks the channel manager to append:
`append_create_account_op(address, starting_balance)` for `create_account` and
`append_payment_op(address, amount, asset_type, asset_issuer)` for
`_send_asset`.  Amounts are exact rationals. -/
inductive OpSpec
  | createAccountOp (destination : String) (starting_balance : ℚ)
  | paymentOp (destination : String) (amount : ℚ) (asset_type : String)
      (asset_issuer : Option String)
deriving DecidableEq

/-- Observable collaborator interactions of the account facade, in order:
ledger reads issued through the client, the inspection of one explicitly
supplied channel seed by the constructor loop, and a delegation to
`channel_manager.send_transaction`. -/
inductive Event
  | getAccountData (address : String)
  | getAccountBalances (address : String)
  | validateChannelKey (key : String)
  | channelSend (op : OpSpec) (memo_text : Option String)
deriving DecidableEq

/-- Model of the `client` collaborator handed to `KinAccount.__init__` (the
SDK object, outside the verified sources): the ledger queries it serves and,
since the channel manager implementation is also outside the verified sources,
an oracle giving the outcome of `channel_manager.send_transaction` for a
requested operation and memo text. -/
structure Client where
  get_account_data : String → AccountStatus
  get_account_balances : String → String → ℚ
  kin_asset : Asset
  send_transaction : OpSpec → Option String → Except KinError String

/-- Modelled from the spec: `KinErrors.translate_error` of `kin/errors.py` is
not among the verified sources.  It maps collaborator failures into the SDK
taxonomy at the boundary; the oracle already reports taxonomy errors, so the
translation is the identity. -/
def translate_error (e : KinError) : KinError := e

/-- The state assembled by a successful `KinAccount.__init__`: the base seed
and public address, the resolved channel seed list, and the connection pool
size `max(1, len(channel_secret_keys)) + 2` used for the horizon instance and
the channel manager. -/
structure KinAccount where
  seed : String
  public_address : String
  channel_secret_keys : List String
  pool_size : Nat
deriving DecidableEq

/-- Lines 78-85 of `kin/account.py`: the final assembly of a `KinAccount`
from the base seed and the resolved channel seed list. -/
def KinAccount.assemble (seed : String) (keys : List String) : KinAccount :=
  { seed := seed
    public_address := address_from_seed seed
    channel_secret_keys := keys
    pool_size := max 1 keys.length + 2 }

/-- The loop of `KinAccount.__init__` over explicitly supplied channel seeds
(lines 38-45 of `kin/account.py`): each seed is validated with
`is_valid_secret_key`, then its account is required to be absent from the
ledger (`AccountStatus.NOT_CREATED`); a present account raises
`AccountNotFoundError`. -/
def validate_channel_keys (client : Client) :
    List String → Except KinError Unit × List Event
  | [] => (Except.ok (), [])
  | k :: rest =>
    if !(is_valid_secret_key k) then
      (Except.error (KinError.valueError ("invalid channel key: " ++ k)),
       [Event.validateChannelKey k])
    else
      let addr := address_from_seed k
      if client.get_account_data addr ≠ AccountStatus.NOT_CREATED then
        (Except.error KinError.accountNotFound,
         [Event.validateChannelKey k, Event.getAccountData addr])
      else
        let r := validate_channel_keys client rest
        (r.1, Event.validateChannelKey k :: Event.getAccountData addr :: r.2)

/-- Lines 22-53 of `kin/account.py`: seed validation, the activation check on
the base account, the rejection of supplying both `channels` and
`channel_secret_keys`, and the resolution of the channel seed list (explicit
list, derived from the master seed, or the base seed as single channel). -/
def channel_keys_of (client : Client) (seed : String) (channels : Option Nat)
    (channel_secret_keys : Option (List String)) :
    Except KinError (List String) × List Event :=
  if !(is_valid_secret_key seed) then
    (Except.error (KinError.valueError ("invalid secret key: " ++ seed)), [])
  else
    let pub := address_from_seed seed
    if client.get_account_data pub ≠ AccountStatus.NOT_ACTIVATED then
      (Except.error KinError.accountNotActivated, [Event.getAccountData pub])
    else if channels.isSome && channel_secret_keys.isSome then
      (Except.error (KinError.valueError
        "Account cannot be initialized with both channels and channel_secret_keys parameters"),
       [Event.getAccountData pub])
    else
      match channel_secret_keys with
      | some l =>
        let r := validate_channel_keys client l
        (r.1.map (fun _ => l), Event.getAccountData pub :: r.2)
      | none =>
        match channels with
        | some n =>
          (Except.ok ((List.range n).map (fun c => generate_hd_seed seed (toString c))),
           [Event.getAccountData pub])
        | none => (Except.ok [seed], [Event.getAccountData pub])

/-- `KinAccount.get_balances` (lines 91-98 of `kin/account.py`): delegates to
`client.get_account_balances` on the base public address.  The returned triple
is the result, the account state after the call, and the event trace. -/
def KinAccount.get_balances (client : Client) (self : KinAccount) :
    (String → ℚ) × KinAccount × List Event :=
  (client.get_account_balances self.public_address, self,
   [Event.getAccountBalances self.public_address])

/-- `KinAccount.get_data` (lines 100-109 of `kin/account.py`): delegates to
`client.get_account_data` on the base public address. -/
def KinAccount.get_data (client : Client) (self : KinAccount) :
    AccountStatus × KinAccount × List Event :=
  (client.get_account_data self.public_address, self,
   [Event.getAccountData self.public_address])

/-- `KinAccount.create_account` (lines 111-138 of `kin/account.py`): validates
the address, then delegates `append_create_account_op` to
`channel_manager.send_transaction`, translating collaborator failures. -/
def KinAccount.create_account (client : Client) (self : KinAccount)
    (address : String) (starting_balance : ℚ) (memo_text : Option String) :
    Except KinError String × KinAccount × List Event :=
  if !(is_valid_address address) then
    (Except.error (KinError.valueError ("invalid address: " ++ address)), self, [])
  else
    ((client.send_transaction (OpSpec.createAccountOp address starting_balance)
        memo_text).mapError translate_error,
     self,
     [Event.channelSend (OpSpec.createAccountOp address starting_balance) memo_text])

/-- Rounding of a rational to an integer, ties to even: the rounding applied
by IEEE-754 arithmetic to the scaled significand. -/
def rnde (a : ℚ) : ℤ :=
  let f := ⌊a⌋
  let r := a - f
  if r < 1 / 2 then f
  else if 1 / 2 < r then f + 1
  else if f % 2 = 0 then f else f + 1

/-- Rounding of an exact rational to the nearest IEEE-754 binary64 value
(round to nearest, ties to even), as the exact rational it denotes: the
significand is the scaled magnitude rounded to 53 bits.  The model covers the
normal range; subnormal underflow and overflow to infinity are outside it. -/
def roundF64 (q : ℚ) : ℚ :=
  if q = 0 then 0
  else
    let a := |q|
    let e := Int.log 2 a
    let r := (rnde (a * 2 ^ (52 - e)) : ℚ) * 2 ^ (e - 52)
    if q < 0 then -r else r

/-- `KinAccount._send_asset` (lines 195-234 of `kin/account.py`): validates
the address, requires a positive amount, and rejects an amount that is too
precise, before delegating `append_payment_op` to
`channel_manager.send_transaction`.  The Python precision test
`amount * 1e7 % 1 != 0` runs on binary64 floats: the multiplicand `1e7` and
the `% 1` step are exact in binary64, so the test holds exactly when the
product `amount * 10^7`, rounded to binary64, is not an integer.  The amount
argument stands for the exact value of the binary64 the method receives. -/
def KinAccount.send_asset (client : Client) (self : KinAccount) (asset : Asset)
    (address : String) (amount : ℚ) (memo_text : Option String) :
    Except KinError String × KinAccount × List Event :=
  if !(is_valid_address address) then
    (Except.error (KinError.valueError ("invalid address: " ++ address)), self, [])
  else if amount ≤ 0 then
    (Except.error (KinError.valueError "amount must be positive"), self, [])
  else if (roundF64 (amount * 10000000)).den ≠ 1 then
    (Except.error (KinError.valueError
      "Number of digits after the decimal point in the amount exceeded the limit(7)."),
     self, [])
  else
    ((client.send_transaction
        (OpSpec.paymentOp address amount asset.code asset.issuer) memo_text).mapError
        translate_error,
     self,
     [Event.channelSend (OpSpec.paymentOp address amount asset.code asset.issuer) memo_text])

/-- `KinAccount.send_xlm` (lines 140-158 of `kin/account.py`). -/
def KinAccount.send_xlm (client : Client) (self : KinAccount) (address : String)
    (amount : ℚ) (memo_text : Option String) :
    Except KinError String × KinAccount × List Event :=
  KinAccount.send_asset client self Asset.native address amount memo_text

/-- `KinAccount.send_kin` (lines 160-179 of `kin/account.py`). -/
def KinAccount.send_kin (client : Client) (self : KinAccount) (address : String)
    (amount : ℚ) (memo_text : Option String) :
    Except KinError String × KinAccount × List Event :=
  KinAccount.send_asset client self client.kin_asset address amount memo_text

/-- The loop of lines 70-76 of `kin/account.py`: create each channel account
from the base account, passing over channels that already exist
(`AccountExistsError` is swallowed, every other failure propagates). -/
def create_channels_loop (client : Client) (base : KinAccount) :
    List String → Except KinError Unit × List Event
  | [] => (Except.ok (), [])
  | k :: rest =>
    let r := KinAccount.create_account client base k MIN_ACCOUNT_BALANCE none
    match r.1 with
    | Except.error KinError.accountExists =>
      let r2 := create_channels_loop client base rest
      (r2.1, r.2.2 ++ r2.2)
    | Except.error e => (Except.error e, r.2.2)
    | Except.ok _ =>
      let r2 := create_channels_loop client base rest
      (r2.1, r.2.2 ++ r2.2)

/-- Lines 55-76 of `kin/account.py`: the `create_channels` block.  It requires
the `channels` parameter, rejects a channel list equal to the base seed alone,
re-constructs a plain base account, checks that the base XLM balance covers
`(len(channels) + 1) * (MIN_ACCOUNT_BALANCE + 0.00001)`, and runs the creation
loop. -/
def create_channels_block (client : Client) (seed : String)
    (channels : Option Nat) (keys : List String) :
    Except KinError Unit × List Event :=
  if channels.isNone then
    (Except.error (KinError.valueError
      "create_channels can only be used with the channels parameter"), [])
  else if keys = [seed] then
    (Except.error (KinError.valueError "There are no channels to create"), [])
  else
    match channel_keys_of client seed none none with
    | (Except.error e, tr) => (Except.error e, tr)
    | (Except.ok bkeys, tr) =>
      let base := KinAccount.assemble seed bkeys
      let rb := KinAccount.get_balances client base
      if ((keys.length : ℚ) + 1) * (MIN_ACCOUNT_BALANCE + 1 / 100000) > rb.1 "XLM" then
        (Except.error (KinError.lowBalance
          "The base account does not have enough XLM to create the channels"),
         tr ++ rb.2.2)
      else
        let rc := create_channels_loop client base keys
        (rc.1, tr ++ rb.2.2 ++ rc.2)

/-- `KinAccount.__init__` (lines 18-85 of `kin/account.py`): resolve the
channel seed list, optionally run the `create_channels` block, and assemble
the account with its connection pool size and channel manager inputs. -/
def KinAccount.init (client : Client) (seed : String) (channels : Option Nat)
    (channel_secret_keys : Option (List String)) (create_channels : Bool) :
    Except KinError KinAccount × List Event :=
  match channel_keys_of client seed channels channel_secret_keys with
  | (Except.error e, tr) => (Except.error e, tr)
  | (Except.ok keys, tr) =>
    if create_channels then
      match create_channels_block client seed channels keys with
      | (Except.error e, tr2) => (Except.error e, tr ++ tr2)
      | (Except.ok _, tr2) => (Except.ok (KinAccount.assemble seed keys), tr ++ tr2)
    else
      (Except.ok (KinAccount.assemble seed keys), tr)

/-- The value of a most-significant-first list of decimal digit characters. -/
def valOfDigits (l : List Char) : Nat :=
  l.foldl (fun a c => 10 * a + (c.toNat - 48)) 0

/-- Parses a nonempty all-digit character list as a natural number. -/
def parse_nat_digits (l : List Char) : Option Nat :=
  if l ≠ [] ∧ l.all (fun c => c.isDigit) then some (valOfDigits l) else none

/-- Model of the Python `int` conversion applied by `Builder.next` to the
sequence string: an optional sign followed by decimal digits. -/
def str_to_int (s : String) : Option Int :=
  match s.data with
  | '-' :: rest => (parse_nat_digits rest).map (fun n => -(n : Int))
  | l => (parse_nat_digits l).map (fun n => (n : Int))

/-- The memo value of the wrapped library as used by `Builder.clear`:
`NoneMemo()` or a text memo. -/
inductive Memo
  | noneMemo
  | textMemo (text : String)
deriving DecidableEq

/-- The builder state of `kin/stellar/builder.py` (fields set by `__init__`
of the subclass and of `stellar_base.builder.Builder`, restricted to the
fields the verified operations read or write).  The opaque built transaction
and envelope are modelled as optional payloads. -/
structure Builder where
  secret : Option String
  address : String
  network : String
  horizon : String
  sequence : String
  ops : List OpSpec
  time_bounds : List (Nat × Nat)
  memo : Memo
  fee : Option Nat
  tx : Option String
  te : Option String
deriving DecidableEq

/-- `Builder.clear` (lines 43-50 of `kin/stellar/builder.py`). -/
def Builder.clear (b : Builder) : Builder :=
  { b with
    ops := []
    time_bounds := []
    memo := Memo.noneMemo
    fee := none
    tx := none
    te := none }

/-- `Builder.next` (lines 56-62 of `kin/stellar/builder.py`): clear the
builder and set `sequence` to `str(int(sequence) + 1)`.  Python `int` raising
on a non-numeric string is outside the model: the parse falls back to 0 there,
and theorems restrict to numeric sequences. -/
def Builder.next (b : Builder) : Builder :=
  let c := b.clear
  { c with sequence := toString ((str_to_int b.sequence).getD 0 + 1) }

/-! ### Helper lemmas -/

theorem toDigitsCore_append (f : Nat) : ∀ (n : Nat) (acc : List Char),
    Nat.toDigitsCore 10 f n acc = Nat.toDigitsCore 10 f n [] ++ acc := by
  induction f with
  | zero => intro n acc; simp [Nat.toDigitsCore]
  | succ f ih =>
    intro n acc
    simp only [Nat.toDigitsCore]
    by_cases h : n / 10 = 0
    · simp [h]
    · rw [if_neg h, if_neg h, ih (n / 10) (Nat.digitChar (n % 10) :: acc),
        ih (n / 10) [Nat.digitChar (n % 10)], List.append_assoc]
      rfl

theorem valOfDigits_append (l : List Char) (c : Char) :
    valOfDigits (l ++ [c]) = 10 * valOfDigits l + (c.toNat - 48) := by
  simp [valOfDigits, List.foldl_append]

theorem digitChar_val : ∀ d : Nat, d < 10 → (Nat.digitChar d).toNat - 48 = d := by
  decide

theorem valOfDigits_toDigitsCore : ∀ (f n : Nat), n < f →
    valOfDigits (Nat.toDigitsCore 10 f n []) = n := by
  intro f
  induction f with
  | zero => intro n h; omega
  | succ f ih =>
    intro n h
    simp only [Nat.toDigitsCore]
    by_cases h0 : n / 10 = 0
    · rw [if_pos h0]
      have hn : n < 10 := by omega
      show valOfDigits [Nat.digitChar (n % 10)] = n
      have : valOfDigits [Nat.digitChar (n % 10)] = (Nat.digitChar (n % 10)).toNat - 48 := by
        simp [valOfDigits]
      rw [this, digitChar_val (n % 10) (by omega)]
      omega
    · have hlt : n / 10 < f := by
        have := Nat.div_lt_self (by omega : 0 < n) (by norm_num : 1 < 10)
        omega
      rw [if_neg h0, toDigitsCore_append, valOfDigits_append, ih (n / 10) hlt,
        digitChar_val (n % 10) (by omega)]
      omega

theorem valOfDigits_toString (n : Nat) : valOfDigits (Nat.toDigits 10 n) = n :=
  valOfDigits_toDigitsCore (n + 1) n (Nat.lt_succ_self n)

theorem toString_nat_injective (m n : Nat) (h : toString m = toString n) : m = n := by
  have hd : Nat.toDigits 10 m = Nat.toDigits 10 n := by
    have h2 := congrArg String.data h
    exact h2
  have hm := valOfDigits_toString m
  rw [hd, valOfDigits_toString n] at hm
  exact hm.symm

theorem string_append_left_cancel (a b c : String) (h : a ++ b = a ++ c) : b = c := by
  have h2 := congrArg String.data h
  rw [String.data_append, String.data_append] at h2
  exact String.ext (List.append_cancel_left h2)

theorem generate_hd_seed_inj (master : String) (i j : Nat)
    (h : generate_hd_seed master (toString i) = generate_hd_seed master (toString j)) :
    i = j := by
  unfold generate_hd_seed at h
  have h2 := string_append_left_cancel (master ++ "-") _ _ h
  exact toString_nat_injective i j h2

/-- The spec-side notion for the precision claim: an amount is representable
with the fixed fractional precision of the ledger (7 decimal digits) when it
is an integer multiple of `10 ^ (-7)`. -/
def representable_up_to_7_digits (q : ℚ) : Prop :=
  ∃ n : ℤ, q = (n : ℚ) / 10 ^ 7

theorem rnde_eq_of_lt_half (a : ℚ) (f : ℤ) (h1 : (f : ℚ) ≤ a) (h2 : a < (f : ℚ) + 1 / 2) :
    rnde a = f := by
  have hf : ⌊a⌋ = f := Int.floor_eq_iff.mpr ⟨h1, by linarith⟩
  unfold rnde
  rw [hf, if_pos (by linarith)]

theorem roundF64_pos_eq (q : ℚ) (e m : ℤ) (hq : 0 < q)
    (h1 : (2 : ℚ) ^ e ≤ q) (h2 : q < (2 : ℚ) ^ (e + 1))
    (hm : rnde (q * (2 : ℚ) ^ ((52 : ℤ) - e)) = m) :
    roundF64 q = (m : ℚ) * (2 : ℚ) ^ (e - 52) := by
  have hb : ((2 : ℕ) : ℚ) = (2 : ℚ) := by norm_num
  have hlog : Int.log 2 q = e := by
    have hle : e ≤ Int.log 2 q := by
      rw [← Int.zpow_le_iff_le_log (by norm_num) hq, hb]
      exact h1
    have hlt : Int.log 2 q < e + 1 := by
      rw [← Int.lt_zpow_iff_log_lt (by norm_num) hq, hb]
      exact h2
    omega
  unfold roundF64
  rw [if_neg (ne_of_gt hq), abs_of_pos hq]
  simp only [hlog, hm, if_neg (not_lt.mpr (le_of_lt hq))]

theorem validate_channel_keys_ok (client : Client) : ∀ l : List String,
    (validate_channel_keys client l).1 = Except.ok () →
    ∀ k ∈ l, is_valid_secret_key k = true ∧
      client.get_account_data (address_from_seed k) = AccountStatus.NOT_CREATED := by
  intro l
  induction l with
  | nil => intro _ k hk; simp at hk
  | cons a rest ih =>
    intro h k hk
    unfold validate_channel_keys at h
    by_cases h1 : is_valid_secret_key a
    · by_cases h2 : client.get_account_data (address_from_seed a) = AccountStatus.NOT_CREATED
      · simp only [h1, Bool.not_true, Bool.false_eq_true, if_false, h2,
          ne_eq, not_true_eq_false] at h
        rcases List.mem_cons.mp hk with rfl | hk2
        · exact ⟨h1, h2⟩
        · exact ih h k hk2
      · simp [h1, h2] at h
    · simp [h1] at h

theorem validate_channel_keys_found (client : Client) : ∀ l : List String,
    (∀ k ∈ l, is_valid_secret_key k = true) →
    (∃ k ∈ l, client.get_account_data (address_from_seed k) ≠ AccountStatus.NOT_CREATED) →
    (validate_channel_keys client l).1 = Except.error KinError.accountNotFound := by
  intro l
  induction l with
  | nil => rintro _ ⟨k, hk, _⟩; simp at hk
  | cons a rest ih =>
    rintro hall ⟨k, hk, hne⟩
    have ha : is_valid_secret_key a = true := hall a (List.mem_cons_self a rest)
    unfold validate_channel_keys
    by_cases h2 : client.get_account_data (address_from_seed a) = AccountStatus.NOT_CREATED
    · have hk2 : k ∈ rest := by
        rcases List.mem_cons.mp hk with rfl | hk2
        · exact absurd h2 hne
        · exact hk2
      simp only [ha, Bool.not_true, Bool.false_eq_true, if_false, h2, ne_eq,
        not_true_eq_false]
      exact ih (fun x hx => hall x (List.mem_cons_of_mem a hx)) ⟨k, hk2, hne⟩
    · simp [ha, h2]

theorem channel_keys_of_explicit (client : Client) (seed : String) (l : List String)
    (h1 : is_valid_secret_key seed = true)
    (h2 : client.get_account_data (address_from_seed seed) = AccountStatus.NOT_ACTIVATED) :
    channel_keys_of client seed none (some l) =
      ((validate_channel_keys client l).1.map (fun _ => l),
       Event.getAccountData (address_from_seed seed) :: (validate_channel_keys client l).2) := by
  unfold channel_keys_of
  simp [h1, h2]

theorem init_explicit_reduction (client : Client) (seed : String) (l : List String)
    (h1 : is_valid_secret_key seed = true)
    (h2 : client.get_account_data (address_from_seed seed) = AccountStatus.NOT_ACTIVATED) :
    (KinAccount.init client seed none (some l) false).1 =
      match (validate_channel_keys client l).1 with
      | Except.ok _ => Except.ok (KinAccount.assemble seed l)
      | Except.error e => Except.error e := by
  unfold KinAccount.init
  rw [channel_keys_of_explicit client seed l h1 h2]
  rcases hv : (validate_channel_keys client l).1 with e | u
  · rfl
  · rfl

/-! ### Concrete fixtures for closed checks -/

/-- A 56 character seed of the shape accepted by the key validator. -/
def seedA : String := "SBKI7MEF62NHHH3AOXBHII46K2FD3LVH63FYHUDLTBUYT3II6RAFLZ7B"

/-- A second well-formed seed, used as an explicitly supplied channel seed. -/
def seedB : String := "SBYU2EBGTTGIFR4O4K4SQXTD4ISMVX4R5TX2TTB4SWVIA5WVRS2MHN4K"

/-- The address of `seedA`. -/
def addrA : String := address_from_seed seedA

/-- The address of `seedB`. -/
def addrB : String := address_from_seed seedB

/-- A well-formed target address unrelated to the fixture seeds. -/
def addrTarget : String := "GBZWWLRJRWL4DLYOJMCHXJUOJJY5NLNJHQDRQHVQH43KFCPC3LEOWPYM"

/-- A fixture client: the base account of `seedA` is not activated, the
account of `seedB` already exists on the ledger (activated), every other
address is absent; submissions succeed with a fixed hash. -/
def clientC : Client where
  get_account_data := fun a =>
    if a = addrA then AccountStatus.NOT_ACTIVATED
    else if a = addrB then AccountStatus.ACTIVATED
    else AccountStatus.NOT_CREATED
  get_account_balances := fun _ _ => 100
  kin_asset := ⟨"KIN", some "GDVDKQFP665JAO7A2LSHNLQIUNYNAAIGJ6FYJVMG4DT3YJQQJSRBLQDG"⟩
  send_transaction := fun _ _ => Except.ok "hash"

/-- The base account assembled from `seedA` with itself as only channel. -/
def acctBase : KinAccount := KinAccount.assemble seedA [seedA]

/-- A 50 character memo text, longer than the 28 byte memo capacity. -/
def memo50 : String := "aaaaaaaaaaaaaaaaaaaaaaaaaaaaaaaaaaaaaaaaaaaaaaaaaa"

/-- The binary64 value the program receives for the literal
`1.1234567898765` (the spec test amount). -/
def float_1_1234567898765 : ℚ := 5059599580254659 / 2 ^ 52

/-- The binary64 value the program receives for the literal `0.0000021`, an
amount with exactly 7 decimal digits. -/
def float_0_0000021 : ℚ := 4958484807013127 / 2 ^ 71

/-- The binary64 value the program receives for the literal
`1.0000000000000001e-07`, an amount requiring more than 7 decimal digits. -/
def float_overprecise : ℚ := 7555786372591433 / 2 ^ 76

theorem roundF64_lit_1_1234567898765 :
    roundF64 ((11234567898765 : ℚ) / 10 ^ 13) = float_1_1234567898765 := by
  unfold float_1_1234567898765
  rw [roundF64_pos_eq ((11234567898765 : ℚ) / 10 ^ 13) 0 5059599580254659 (by norm_num)
    (by norm_num) (by norm_num)
    (rnde_eq_of_lt_half _ 5059599580254659 (by norm_num) (by norm_num))]
  norm_num

theorem roundF64_prod_1_1234567898765 :
    roundF64 (float_1_1234567898765 * 10000000) = 6031512713735889 / 2 ^ 29 := by
  unfold float_1_1234567898765
  rw [roundF64_pos_eq _ 23 6031512713735889 (by norm_num) (by norm_num) (by norm_num)
    (rnde_eq_of_lt_half _ 6031512713735889 (by norm_num) (by norm_num))]
  norm_num

theorem prod_1_1234567898765_den_ne_one : ((6031512713735889 : ℚ) / 2 ^ 29).den ≠ 1 := by
  intro h
  rw [Rat.den_eq_one_iff] at h
  have h3 : (((6031512713735889 : ℚ) / 2 ^ 29).num : ℚ) * 2 ^ 29 = 6031512713735889 := by
    rw [h]
    norm_num
  have h4 : ((6031512713735889 : ℚ) / 2 ^ 29).num * 2 ^ 29 = (6031512713735889 : ℤ) := by
    exact_mod_cast h3
  omega

theorem roundF64_lit_0_0000021 :
    roundF64 ((21 : ℚ) / 10 ^ 7) = float_0_0000021 := by
  unfold float_0_0000021
  rw [roundF64_pos_eq _ (-19) 4958484807013127 (by norm_num) (by norm_num) (by norm_num)
    (rnde_eq_of_lt_half _ 4958484807013127 (by norm_num) (by norm_num))]
  norm_num

theorem roundF64_prod_0_0000021 :
    roundF64 (float_0_0000021 * 10000000) = 5910974510923775 / 2 ^ 48 := by
  unfold float_0_0000021
  rw [roundF64_pos_eq _ 4 5910974510923775 (by norm_num) (by norm_num) (by norm_num)
    (rnde_eq_of_lt_half _ 5910974510923775 (by norm_num) (by norm_num))]
  norm_num

theorem prod_0_0000021_den_ne_one : ((5910974510923775 : ℚ) / 2 ^ 48).den ≠ 1 := by
  intro h
  rw [Rat.den_eq_one_iff] at h
  have h3 : (((5910974510923775 : ℚ) / 2 ^ 48).num : ℚ) * 2 ^ 48 = 5910974510923775 := by
    rw [h]
    norm_num
  have h4 : ((5910974510923775 : ℚ) / 2 ^ 48).num * 2 ^ 48 = (5910974510923775 : ℤ) := by
    exact_mod_cast h3
  omega

theorem roundF64_lit_overprecise :
    roundF64 ((10000000000000001 : ℚ) / 10 ^ 23) = float_overprecise := by
  unfold float_overprecise
  rw [roundF64_pos_eq _ (-24) 7555786372591433 (by norm_num) (by norm_num) (by norm_num)
    (rnde_eq_of_lt_half _ 7555786372591433 (by norm_num) (by norm_num))]
  norm_num

theorem roundF64_prod_overprecise :
    roundF64 (float_overprecise * 10000000) = 1 := by
  unfold float_overprecise
  rw [roundF64_pos_eq _ 0 4503599627370496 (by norm_num) (by norm_num) (by norm_num)
    (rnde_eq_of_lt_half _ 4503599627370496 (by norm_num) (by norm_num))]
  norm_num

theorem float_overprecise_not_representable :
    ¬ representable_up_to_7_digits float_overprecise := by
  rintro ⟨n, hn⟩
  unfold float_overprecise at hn
  have h2 : (n : ℚ) * 2 ^ 76 = 7555786372591433 * 10 ^ 7 := by
    field_simp at hn
    linarith [hn]
  have h3 : n * 2 ^ 76 = (7555786372591433 : ℤ) * 10 ^ 7 := by
    exact_mod_cast h2
  omega

/-! ### Claims -/

/-- C1 counterexample: constructing a `KinAccount` with the explicit channel
seed `seedB`, whose ledger account is already present (status `ACTIVATED`),
fails with `AccountNotFoundError` — not with an account-already-exists error
as the claim states. -/
theorem init_existing_channel_error_cx :
    KinAccount.init clientC seedA none (some [seedB]) false =
      (Except.error KinError.accountNotFound,
       [Event.getAccountData addrA, Event.validateChannelKey seedB,
        Event.getAccountData addrB]) ∧
    KinError.accountNotFound ≠ KinError.accountExists := by
  constructor
  · decide
  · decide

/-- C1 (amended): with a valid, not-activated base account, every explicitly
supplied channel seed must validate as a well-formed secret key and resolve to
an account absent from the ledger for construction to succeed; if all supplied
seeds are well formed and any of them resolves to an already-present account,
construction fails with `AccountNotFoundError`. -/
theorem init_explicit_channels_checked (client : Client) (seed : String) (l : List String)
    (h1 : is_valid_secret_key seed = true)
    (h2 : client.get_account_data (address_from_seed seed) = AccountStatus.NOT_ACTIVATED) :
    (∀ acct, (KinAccount.init client seed none (some l) false).1 = Except.ok acct →
      ∀ k ∈ l, is_valid_secret_key k = true ∧
        client.get_account_data (address_from_seed k) = AccountStatus.NOT_CREATED) ∧
    ((∀ k ∈ l, is_valid_secret_key k = true) →
      (∃ k ∈ l, client.get_account_data (address_from_seed k) ≠ AccountStatus.NOT_CREATED) →
      (KinAccount.init client seed none (some l) false).1 =
        Except.error KinError.accountNotFound) := by
  have hred := init_explicit_reduction client seed l h1 h2
  constructor
  · intro acct hok k hk
    rcases hv : (validate_channel_keys client l).1 with e | u
    · rw [hred, hv] at hok
      cases hok
    · cases u
      exact validate_channel_keys_ok client l hv k hk
  · intro hall hex
    rw [hred, validate_channel_keys_found client l hall hex]

/-- C1 witness: the amended theorem applied to the fixture client, with the
already-present channel account `seedB`. -/
theorem init_explicit_channels_checked_witness :
    (∀ acct, (KinAccount.init clientC seedA none (some [seedB]) false).1 = Except.ok acct →
      ∀ k ∈ [seedB], is_valid_secret_key k = true ∧
        clientC.get_account_data (address_from_seed k) = AccountStatus.NOT_CREATED) ∧
    ((∀ k ∈ [seedB], is_valid_secret_key k = true) →
      (∃ k ∈ [seedB], clientC.get_account_data (address_from_seed k) ≠ AccountStatus.NOT_CREATED) →
      (KinAccount.init clientC seedA none (some [seedB]) false).1 =
        Except.error KinError.accountNotFound) :=
  init_explicit_channels_checked clientC seedA [seedB] (by decide) (by decide)

/-- C2 counterexample: the binary64 amount the program receives for the
literal `1.0000000000000001e-07` requires more than 7 decimal digits (it is
not an integer multiple of `10 ^ (-7)`), yet the float precision check
accepts it — `fl(amount * 1e7) = 1.0` exactly — and `_send_asset` delegates
to the channel manager instead of raising a local validation error. -/
theorem send_asset_overprecise_accepted_cx :
    roundF64 ((10000000000000001 : ℚ) / 10 ^ 23) = float_overprecise ∧
    ¬ representable_up_to_7_digits float_overprecise ∧
    KinAccount.send_asset clientC acctBase Asset.native addrTarget float_overprecise none =
      (Except.ok "hash", acctBase,
       [Event.channelSend (OpSpec.paymentOp addrTarget float_overprecise
          Asset.native.code Asset.native.issuer) none]) := by
  refine ⟨roundF64_lit_overprecise, float_overprecise_not_representable, ?_⟩
  unfold KinAccount.send_asset
  have haddr : is_valid_address addrTarget = true := by decide
  have hpos : ¬ (float_overprecise ≤ 0) := by norm_num [float_overprecise]
  have hden : (roundF64 (float_overprecise * 10000000)).den = 1 := by
    rw [roundF64_prod_overprecise]
    rfl
  simp [haddr, hpos, hden]
  rfl

/-- C2 (amended): `_send_asset` rejects a malformed destination address or a
non-positive amount with a `ValueError` before the channel manager is
invoked (the event trace is empty, so no channel is acquired and nothing is
delegated); and in particular the binary64 amount received for the literal
`1.1234567898765` fails the float precision check and is rejected before any
channel acquisition. -/
theorem send_asset_rejects_before_channel (client : Client) (self : KinAccount)
    (asset : Asset) (address : String) (amount : ℚ) (memo_text : Option String)
    (h : is_valid_address address = false ∨ amount ≤ 0) :
    ((∃ msg, (KinAccount.send_asset client self asset address amount memo_text).1 =
        Except.error (KinError.valueError msg)) ∧
      (KinAccount.send_asset client self asset address amount memo_text).2.2 = []) ∧
    roundF64 ((11234567898765 : ℚ) / 10 ^ 13) = float_1_1234567898765 ∧
    (is_valid_address address = true →
      KinAccount.send_asset client self asset address float_1_1234567898765 memo_text =
        (Except.error (KinError.valueError
          "Number of digits after the decimal point in the amount exceeded the limit(7)."),
         self, [])) := by
  refine ⟨?_, roundF64_lit_1_1234567898765, ?_⟩
  · unfold KinAccount.send_asset
    rcases h with h | h
    · refine ⟨⟨"invalid address: " ++ address, ?_⟩, ?_⟩ <;> simp [h]
    · by_cases ha : is_valid_address address
      · refine ⟨⟨"amount must be positive", ?_⟩, ?_⟩ <;> simp [ha, h]
      · refine ⟨⟨"invalid address: " ++ address, ?_⟩, ?_⟩ <;>
          simp [eq_false_of_ne_true ha]
  · intro ha
    unfold KinAccount.send_asset
    have hpos : ¬ (float_1_1234567898765 ≤ 0) := by norm_num [float_1_1234567898765]
    have hden : (roundF64 (float_1_1234567898765 * 10000000)).den ≠ 1 := by
      rw [roundF64_prod_1_1234567898765]
      exact prod_1_1234567898765_den_ne_one
    simp [ha, hpos, hden]

/-- C2 witness: the amended theorem applied to a non-positive amount and the
valid target address (covering the local rejection and the concrete
`1.1234567898765` rejection before any channel acquisition). -/
theorem send_asset_rejects_before_channel_witness :
    ((∃ msg, (KinAccount.send_asset clientC acctBase Asset.native addrTarget 0 none).1 =
        Except.error (KinError.valueError msg)) ∧
      (KinAccount.send_asset clientC acctBase Asset.native addrTarget 0 none).2.2 = []) ∧
    roundF64 ((11234567898765 : ℚ) / 10 ^ 13) = float_1_1234567898765 ∧
    (is_valid_address addrTarget = true →
      KinAccount.send_asset clientC acctBase Asset.native addrTarget
        float_1_1234567898765 none =
        (Except.error (KinError.valueError
          "Number of digits after the decimal point in the amount exceeded the limit(7)."),
         acctBase, [])) :=
  send_asset_rejects_before_channel clientC acctBase Asset.native addrTarget 0 none
    (Or.inr (le_refl 0))

/-- C3 (code bug, evaluated at the failing input): the amount `0.0000021` is
representable with exactly 7 decimal digits, the program receives for it the
binary64 value `4958484807013127 / 2 ^ 71`, and the precision check of
`_send_asset` nevertheless rejects it: `fl(amount * 1e7)` is
`20.999999999999996` (one ulp below 21), which is not an integer, so the
method raises the precision `ValueError` on an amount that the claim — and
the error message about exceeding 7 digits — says must be accepted. -/
theorem send_asset_seven_digit_rejected_bug :
    representable_up_to_7_digits ((21 : ℚ) / 10 ^ 7) ∧
    roundF64 ((21 : ℚ) / 10 ^ 7) = float_0_0000021 ∧
    KinAccount.send_asset clientC acctBase Asset.native addrTarget float_0_0000021 none =
      (Except.error (KinError.valueError
        "Number of digits after the decimal point in the amount exceeded the limit(7)."),
       acctBase, []) := by
  refine ⟨⟨21, rfl⟩, roundF64_lit_0_0000021, ?_⟩
  unfold KinAccount.send_asset
  have haddr : is_valid_address addrTarget = true := by decide
  have hpos : ¬ (float_0_0000021 ≤ 0) := by norm_num [float_0_0000021]
  have hden : (roundF64 (float_0_0000021 * 10000000)).den ≠ 1 := by
    rw [roundF64_prod_0_0000021]
    exact prod_0_0000021_den_ne_one
  simp [haddr, hpos, hden]

/-- C4: when both a channel count and an explicit channel seed list are
supplied, construction of a valid, not-activated base account fails with the
configuration `ValueError`, and the trace holds only the base-account status
read: no channel seed is inspected. -/
theorem init_both_channel_params_rejected (client : Client) (seed : String)
    (n : Nat) (l : List String) (cc : Bool)
    (h1 : is_valid_secret_key seed = true)
    (h2 : client.get_account_data (address_from_seed seed) = AccountStatus.NOT_ACTIVATED) :
    KinAccount.init client seed (some n) (some l) cc =
      (Except.error (KinError.valueError
        "Account cannot be initialized with both channels and channel_secret_keys parameters"),
       [Event.getAccountData (address_from_seed seed)]) := by
  unfold KinAccount.init channel_keys_of
  simp [h1, h2]

/-- C4 witness: the theorem applied to the fixture client with a channel count
of 2 and the explicit list `[seedB]`. -/
theorem init_both_channel_params_rejected_witness :
    KinAccount.init clientC seedA (some 2) (some [seedB]) false =
      (Except.error (KinError.valueError
        "Account cannot be initialized with both channels and channel_secret_keys parameters"),
       [Event.getAccountData (address_from_seed seedA)]) :=
  init_both_channel_params_rejected clientC seedA 2 [seedB] false (by decide) (by decide)

/-- C5 counterexample: `create_account` with a valid address and a 50 byte
memo (well beyond the 28 byte capacity) does not raise a local validation
error; it delegates to the channel manager with the over-long memo attached
and returns the submission result. -/
theorem create_account_memo_unchecked_cx :
    (KinAccount.create_account clientC acctBase addrTarget MIN_ACCOUNT_BALANCE
      (some memo50)).1 = Except.ok "hash" ∧
    (KinAccount.create_account clientC acctBase addrTarget MIN_ACCOUNT_BALANCE
      (some memo50)).2.2 =
      [Event.channelSend (OpSpec.createAccountOp addrTarget MIN_ACCOUNT_BALANCE)
        (some memo50)] ∧
    28 < memo50.length := by
  refine ⟨?_, ?_, ?_⟩ <;> decide

/-- C5 (amended): `create_account` validates only the address format locally:
a malformed address raises a `ValueError` with an empty event trace (zero
calls to the ledger client), and with a valid address the memo text is
forwarded to the channel manager without local length validation. -/
theorem create_account_validates_address_only (client : Client) (self : KinAccount)
    (address : String) (starting_balance : ℚ) (memo_text : Option String) :
    (is_valid_address address = false →
      KinAccount.create_account client self address starting_balance memo_text =
        (Except.error (KinError.valueError ("invalid address: " ++ address)), self, [])) ∧
    (is_valid_address address = true →
      KinAccount.create_account client self address starting_balance memo_text =
        ((client.send_transaction (OpSpec.createAccountOp address starting_balance)
            memo_text).mapError translate_error,
         self,
         [Event.channelSend (OpSpec.createAccountOp address starting_balance) memo_text])) := by
  constructor
  · intro h
    unfold KinAccount.create_account
    simp [h]
  · intro h
    unfold KinAccount.create_account
    simp [h]

/-- C5 witness: the amended theorem applied to a malformed address (empty
trace, local `ValueError`) and to a valid address (delegation). -/
theorem create_account_validates_address_only_witness :
    (is_valid_address "bad address" = false →
      KinAccount.create_account clientC acctBase "bad address" MIN_ACCOUNT_BALANCE none =
        (Except.error (KinError.valueError ("invalid address: " ++ "bad address")),
         acctBase, [])) ∧
    (is_valid_address "bad address" = true →
      KinAccount.create_account clientC acctBase "bad address" MIN_ACCOUNT_BALANCE none =
        ((clientC.send_transaction (OpSpec.createAccountOp "bad address" MIN_ACCOUNT_BALANCE)
            none).mapError translate_error,
         acctBase,
         [Event.channelSend (OpSpec.createAccountOp "bad address" MIN_ACCOUNT_BALANCE) none])) :=
  create_account_validates_address_only clientC acctBase "bad address" MIN_ACCOUNT_BALANCE none

/-- C6: constructing with a channel count `n ≥ 1` (and a valid, not-activated
base account) succeeds, and the channel seed list is exactly the `n` seeds
derived deterministically from the master seed and the decimal index strings,
pairwise distinct. -/
theorem init_channel_count_derivation (client : Client) (seed : String) (n : Nat)
    (h1 : is_valid_secret_key seed = true)
    (h2 : client.get_account_data (address_from_seed seed) = AccountStatus.NOT_ACTIVATED)
    (_h3 : 1 ≤ n) :
    ∃ acct, (KinAccount.init client seed (some n) none false).1 = Except.ok acct ∧
      acct.channel_secret_keys =
        (List.range n).map (fun c => generate_hd_seed seed (toString c)) ∧
      acct.channel_secret_keys.length = n ∧
      acct.channel_secret_keys.Nodup := by
  refine ⟨KinAccount.assemble seed
    ((List.range n).map (fun c => generate_hd_seed seed (toString c))), ?_, rfl, ?_, ?_⟩
  · unfold KinAccount.init channel_keys_of
    simp [h1, h2]
  · simp [KinAccount.assemble]
  · exact List.Nodup.map (fun i j h => generate_hd_seed_inj seed i j h) (List.nodup_range n)

/-- C6 witness: the theorem applied to the fixture client with 3 channels. -/
theorem init_channel_count_derivation_witness :
    ∃ acct, (KinAccount.init clientC seedA (some 3) none false).1 = Except.ok acct ∧
      acct.channel_secret_keys =
        (List.range 3).map (fun c => generate_hd_seed seedA (toString c)) ∧
      acct.channel_secret_keys.length = 3 ∧
      acct.channel_secret_keys.Nodup :=
  init_channel_count_derivation clientC seedA 3 (by decide) (by decide) (by decide)

/-- C7: constructing with neither a channel count nor an explicit channel seed
list yields the base seed itself as the only channel. -/
theorem init_default_single_channel (client : Client) (seed : String)
    (h1 : is_valid_secret_key seed = true)
    (h2 : client.get_account_data (address_from_seed seed) = AccountStatus.NOT_ACTIVATED) :
    ∃ acct, (KinAccount.init client seed none none false).1 = Except.ok acct ∧
      acct.channel_secret_keys = [seed] := by
  refine ⟨KinAccount.assemble seed [seed], ?_, rfl⟩
  unfold KinAccount.init channel_keys_of
  simp [h1, h2]

/-- C7 witness: the theorem applied to the fixture client. -/
theorem init_default_single_channel_witness :
    ∃ acct, (KinAccount.init clientC seedA none none false).1 = Except.ok acct ∧
      acct.channel_secret_keys = [seedA] :=
  init_default_single_channel clientC seedA (by decide) (by decide)

/-- C8: `get_balances` and `get_data` delegate directly to the ledger client
on the base public address; the account state is returned unchanged and the
trace holds exactly the one ledger read — in particular no channel manager
delegation. -/
theorem get_balances_get_data_read_only (client : Client) (self : KinAccount) :
    KinAccount.get_balances client self =
      (client.get_account_balances self.public_address, self,
       [Event.getAccountBalances self.public_address]) ∧
    KinAccount.get_data client self =
      (client.get_account_data self.public_address, self,
       [Event.getAccountData self.public_address]) :=
  ⟨rfl, rfl⟩

/-- C9: construction of a `KinAccount` with a valid base seed fails with
`AccountNotActivatedError` whenever the base account status is not exactly
`NOT_ACTIVATED` — covering both `ACTIVATED` and `NOT_CREATED` base accounts. -/
theorem init_requires_not_activated_status (client : Client) (seed : String)
    (channels : Option Nat) (channel_secret_keys : Option (List String)) (cc : Bool)
    (h1 : is_valid_secret_key seed = true)
    (h2 : client.get_account_data (address_from_seed seed) ≠ AccountStatus.NOT_ACTIVATED) :
    KinAccount.init client seed channels channel_secret_keys cc =
      (Except.error KinError.accountNotActivated,
       [Event.getAccountData (address_from_seed seed)]) := by
  unfold KinAccount.init channel_keys_of
  simp [h1, h2]

/-- C9 witness: the theorem applied to the base seed `seedB`, whose account is
fully `ACTIVATED` under the fixture client. -/
theorem init_requires_not_activated_status_witness :
    KinAccount.init clientC seedB none none false =
      (Except.error KinError.accountNotActivated,
       [Event.getAccountData (address_from_seed seedB)]) :=
  init_requires_not_activated_status clientC seedB none none false (by decide) (by decide)

/-- C10: `Builder.next` leaves the builder cleared for reuse — empty
operations and time bounds, `NoneMemo`, and `fee`, `tx`, `te` reset — sets the
sequence to the decimal string of the previous integer sequence plus one, and
changes no other field. -/
theorem builder_next_clears_and_increments (b : Builder) (n : Int)
    (h : str_to_int b.sequence = some n) :
    b.next = { secret := b.secret, address := b.address, network := b.network,
               horizon := b.horizon, sequence := toString (n + 1), ops := [],
               time_bounds := [], memo := Memo.noneMemo, fee := none, tx := none,
               te := none } := by
  unfold Builder.next Builder.clear
  simp [h]

/-- C10 witness: a builder with pending state and sequence `"41"` is cleared
and its sequence becomes `"42"`. -/
theorem builder_next_clears_and_increments_witness :
    Builder.next
      { secret := some seedA, address := addrA, network := "TESTNET",
        horizon := "https://horizon", sequence := "41",
        ops := [OpSpec.createAccountOp addrTarget 1], time_bounds := [(1, 2)],
        memo := Memo.textMemo "x", fee := some 100, tx := some "t", te := some "e" } =
      { secret := some seedA, address := addrA, network := "TESTNET",
        horizon := "https://horizon", sequence := toString ((41 : Int) + 1), ops := [],
        time_bounds := [], memo := Memo.noneMemo, fee := none, tx := none,
        te := none } :=
  builder_next_clears_and_increments
    { secret := some seedA, address := addrA, network := "TESTNET",
      horizon := "https://horizon", sequence := "41",
      ops := [OpSpec.createAccountOp addrTarget 1], time_bounds := [(1, 2)],
      memo := Memo.textMemo "x", fee := some 100, tx := some "t", te := some "e" }
    41 (by decide)

end KinSdk
